import Mathlib

/-!
Shallow embedding of the dev-time hot-update coordinator of `waku`
(the `rsc-hmr` Vite plugin): the pending-module registry
(`modulePendingMap`), the connection gate (`moduleImport` /
`waitForConnection`), the update event channel (`hotUpdate`), the
injection planner (`generateInitialScripts`), and the source patch
injector (the plugin's `transform` hook).

Machine state is made explicit: the single `ViteDevServer`'s entry in
`modulePendingMap`, the calls suspended at `waitForConnection`, the
trace of payloads handed to `vite.hot.send`, and a ghost flag recording
whether a `connection` event has ever fired.  JavaScript `Set`
membership on objects is reference identity, so artifacts carry an
explicit `ref` field modelling the object reference; two distinct
objects may agree on every other field.
-/

namespace RscHmr

/-- Type `ModuleImportResult` from the source: `TransformResult & \x7b id, source, css? \x7d`.
`ref` models the JavaScript object reference (a `Set` deduplicates by it);
`id`, `code`, `source` are the fields the coordinator reads. -/
structure ModuleImportResult where
  ref : Nat
  id : String
  code : String
  source : String
deriving DecidableEq, Repr

/-- Type `HotUpdatePayload` from the source, the four wire-level event shapes. -/
inductive HotUpdatePayload where
  | fullReload
  | rscReload
  | hotImport (data : String)
  | moduleImport (data : ModuleImportResult)
deriving DecidableEq, Repr

/-- State of one dev server: its `modulePendingMap` entry (`none` when the
WeakMap has no entry for the server; the `Set` iterates in insertion order,
hence a duplicate-free list), the `moduleImport` calls suspended at
`waitForConnection` in suspension order, the payloads passed to
`vite.hot.send` oldest first, and whether a `connection` event has fired. -/
structure DevState where
  modulePending : Option (List ModuleImportResult)
  pendingWaiters : List ModuleImportResult
  sentEvents : List HotUpdatePayload
  everConnected : Bool
deriving DecidableEq, Repr

/-- A fresh dev server: no registry entry, nothing suspended, nothing sent. -/
def initialDevState : DevState :=
  { modulePending := none, pendingWaiters := [], sentEvents := [], everConnected := false }

/-- JavaScript `Set.has` on objects: membership by reference identity. -/
def memRef (a : ModuleImportResult) (l : List ModuleImportResult) : Bool :=
  l.any fun b => b.ref == a.ref

/-- The server's registry set as a list (empty when no entry exists). -/
def registryList (st : DevState) : List ModuleImportResult :=
  st.modulePending.getD []

/-- Session Registry `has`: is the artifact recorded for this server. -/
def hasRecord (st : DevState) (a : ModuleImportResult) : Bool :=
  memRef a (registryList st)

/-- How many entries of a list share the artifact's reference. -/
def listRecordCount (l : List ModuleImportResult) (a : ModuleImportResult) : Nat :=
  (l.filter fun b => b.ref == a.ref).length

/-- How many registry records share the artifact's reference. -/
def recordCount (st : DevState) (a : ModuleImportResult) : Nat :=
  listRecordCount (registryList st) a

/-- Is a sent payload a `module-import` event carrying this artifact. -/
def isImportOf (a : ModuleImportResult) : HotUpdatePayload → Bool
  | .moduleImport b => b.ref == a.ref
  | _ => false

/-- How many payloads of a list are `module-import` events for this artifact. -/
def listImportCount (l : List HotUpdatePayload) (a : ModuleImportResult) : Nat :=
  (l.filter (isImportOf a)).length

/-- How many `module-import` events carrying this artifact were transported. -/
def sentImportCount (st : DevState) (a : ModuleImportResult) : Nat :=
  listImportCount st.sentEvents a

/-- Body of `moduleImport` after the point where `await waitForConnection`
may have occurred: `if (sourceSet.has(result)) return; sourceSet.add(result);
viteServer.hot.send(\x7b type, event, data \x7d)`.  The `none` case is
unreachable in the source (the entry was created before suspending). -/
def moduleImportBody (st : DevState) (result : ModuleImportResult) : DevState :=
  match st.modulePending with
  | none => st
  | some sourceSet =>
    if memRef result sourceSet then st
    else
      { st with
        modulePending := some (sourceSet ++ [result]),
        sentEvents := st.sentEvents ++ [HotUpdatePayload.moduleImport result] }

/-- Function `moduleImport(viteServer, result)`: when the server has no
`modulePendingMap` entry, create an empty one and suspend at
`waitForConnection` (the call is queued; nothing is sent); otherwise run
the deduplicate-record-send body synchronously. -/
def moduleImport (st : DevState) (result : ModuleImportResult) : DevState :=
  match st.modulePending with
  | none =>
    { st with
      modulePending := some [],
      pendingWaiters := st.pendingWaiters ++ [result] }
  | some _ => moduleImportBody st result

/-- A `connection` event on `vite.ws`: every call suspended at
`waitForConnection` resumes, in suspension order, and runs the rest of
`moduleImport`. -/
def connectionEvent (st : DevState) : DevState :=
  st.pendingWaiters.foldl moduleImportBody
    { st with pendingWaiters := [], everConnected := true }

/-- Function `hotUpdate(vite, payload)` from the source: `full-reload` is sent as is;
`rsc-reload` clears the server's registry set in place (if the entry
exists) and is then sent; `module-import` is routed through `moduleImport`;
a `hot-import` payload matches none of the three dispatch branches, so the
function returns without sending anything. -/
def hotUpdate (st : DevState) (payload : HotUpdatePayload) : DevState :=
  match payload with
  | .fullReload => { st with sentEvents := st.sentEvents ++ [payload] }
  | .rscReload =>
    { st with
      modulePending := st.modulePending.map fun _ => [],
      sentEvents := st.sentEvents ++ [payload] }
  | .hotImport _ => st
  | .moduleImport data => moduleImport st data

/-- The spec-level `deliver(connection, artifact)` call.  In the source it
is `moduleImport(viteServer, result)`: keyed by the dev server alone; the
spec's connection argument has no counterpart in the code and is ignored. -/
def deliver (_conn : Nat) (st : DevState) (a : ModuleImportResult) : DevState :=
  moduleImport st a

/-- External stimuli driving one dev server: a call to `hotUpdate` with a
payload, or a `connection` event on the websocket. -/
inductive DevEvent where
  | payload (p : HotUpdatePayload)
  | connection
deriving DecidableEq, Repr

/-- One stimulus. -/
def devStep (st : DevState) : DevEvent → DevState
  | .payload p => hotUpdate st p
  | .connection => connectionEvent st

/-- A sequence of stimuli, oldest first. -/
def run (st : DevState) (evs : List DevEvent) : DevState :=
  evs.foldl devStep st

/-! ### Injection planner (`generateInitialScripts`) -/

/-- JavaScript `String.prototype.endsWith`. -/
def jsEndsWith (s suffix : String) : Bool :=
  suffix.data.isSuffixOf s.data

/-- JavaScript `String.prototype.startsWith`. -/
def jsStartsWith (s pre : String) : Bool :=
  pre.data.isPrefixOf s.data

/-- A Vite `HtmlTagDescriptor` as the planner builds it: tag name,
attribute list in insertion order, optional children text, and the
`injectTo` hint. -/
structure HtmlTag where
  tag : String
  attrs : List (String × String)
  children : Option String
  injectTo : String
deriving DecidableEq, Repr

/-- The constant `WAKU_ATTR_NAME` of the source. -/
def WAKU_ATTR_NAME : String := "waku-module-id"

/-- The attribute name targeted by the removal step of the `rsc-reload`
handler installed by `injectingHmrCode`: the handler calls
`document.querySelectorAll` with the selector `[` + `WAKU_ATTR_NAME` + `]`
(the constant is interpolated into the template literal) and removes every
match.  An element is removed by that query iff it carries an attribute
with this name. -/
def rscReloadRemovalAttrName : String := WAKU_ATTR_NAME

/-- Is an element removed by the `rsc-reload` handler's
identity-attribute query. -/
def removedByRscReloadHandler (t : HtmlTag) : Bool :=
  t.attrs.any fun kv => kv.1 == rscReloadRemovalAttrName

/-- The synthetic parse-blocking tag for the Vite client:
`\x7b tag: 'script', attrs: \x7b type, blocking, src \x7d, injectTo: 'head-prepend' \x7d`. -/
def blockingViteClientTag : HtmlTag :=
  { tag := "script",
    attrs := [("type", "module"), ("blocking", "render"), ("src", "/@vite/client")],
    children := none,
    injectTo := "head-prepend" }

/-- The script tag the planner emits for a CSS-module artifact.  In the
source the attrs object literal is `\x7b type: 'module', WAKU_ATTR_NAME: result.id \x7d`:
the property key is the bare identifier `WAKU_ATTR_NAME` (not the computed
key `[WAKU_ATTR_NAME]`), so the emitted attribute is literally named
`WAKU_ATTR_NAME`. -/
def cssModuleScriptTag (result : ModuleImportResult) : HtmlTag :=
  { tag := "script",
    attrs := [("type", "module"), ("WAKU_ATTR_NAME", result.id)],
    children := some result.code,
    injectTo := "head-prepend" }

/-- The style tag the planner emits for any other artifact; the attrs
object literal again uses the bare identifier `WAKU_ATTR_NAME` as key. -/
def inlineStyleTag (result : ModuleImportResult) : HtmlTag :=
  { tag := "style",
    attrs := [("type", "text/css"), ("WAKU_ATTR_NAME", result.id)],
    children := some result.source,
    injectTo := "body" }

/-- The `for (const result of sourceSet)` loop of `generateInitialScripts`,
with the `injectedBlockingViteClient` flag threaded through. -/
def initialScriptsLoop : List ModuleImportResult → Bool → List HtmlTag
  | [], _ => []
  | result :: rest, injectedBlockingViteClient =>
    if jsEndsWith result.id ".module.css" then
      (if injectedBlockingViteClient then [] else [blockingViteClientTag])
        ++ cssModuleScriptTag result :: initialScriptsLoop rest true
    else
      inlineStyleTag result :: initialScriptsLoop rest injectedBlockingViteClient

/-- Function `generateInitialScripts(viteServer)`: empty when the server is
`undefined` or has no `modulePendingMap` entry; otherwise the loop over
the registry set in insertion order. -/
def generateInitialScripts (viteServer : Option DevState) : List HtmlTag :=
  match viteServer with
  | none => []
  | some st =>
    match st.modulePending with
    | none => []
    | some sourceSet => initialScriptsLoop sourceSet false

/-! ### Source patch injector (the plugin's `transform` hook) -/

/-- JavaScript `String.prototype.replace` with a string pattern: replace
the first occurrence of `pat` (at the leftmost, earliest position) by
`rep`; when `pat` does not occur, return the input unchanged. -/
def replaceFirst (pat rep : List Char) : List Char → List Char
  | [] => if pat.isPrefixOf ([] : List Char) then rep else []
  | c :: cs =>
    if pat.isPrefixOf (c :: cs) then rep ++ (c :: cs).drop pat.length
    else c :: replaceFirst pat rep cs

/-- Does `pat` occur as a contiguous substring. -/
def containsSubstr (pat : List Char) : List Char → Bool
  | [] => pat.isPrefixOf ([] : List Char)
  | c :: cs => pat.isPrefixOf (c :: cs) || containsSubstr pat cs

/-- String-level wrapper for `replaceFirst`. -/
def jsReplaceFirst (s pat rep : String) : String :=
  ⟨replaceFirst pat.data rep.data s.data⟩

/-- The insertion marker for the fragment-fetch client module. -/
def FETCH_RSC_LINE : String :=
  "export const fetchRSC = (input, searchParamsString, setElements, cache = fetchCache)=>\x7b"

/-- The insertion marker for the router client module. -/
def INNER_ROUTER_LINE : String := "function InnerRouter() \x7b"

/-- The block inserted after `FETCH_RSC_LINE` (the template literal of the
source, braces written as escapes). -/
def fetchRscInjectionText : String :=
  "\n\x7b\n  const refetchRsc = () => \x7b\n    cache.splice(0);\n    const data = fetchRSC(input, searchParamsString, setElements, cache);\n    setElements(data);\n  \x7d;\n  globalThis.__WAKU_RSC_RELOAD_LISTENERS__ ||= [];\n  const index = globalThis.__WAKU_RSC_RELOAD_LISTENERS__.indexOf(globalThis.__WAKU_REFETCH_RSC__);\n  if (index !== -1) \x7b\n    globalThis.__WAKU_RSC_RELOAD_LISTENERS__.splice(index, 1, refetchRsc);\n  \x7d else \x7b\n    globalThis.__WAKU_RSC_RELOAD_LISTENERS__.push(refetchRsc);\n  \x7d\n  globalThis.__WAKU_REFETCH_RSC__ = refetchRsc;\n\x7d\n"

/-- The block inserted after `INNER_ROUTER_LINE`. -/
def innerRouterInjectionText : String :=
  "\n\x7b\n  const refetchRoute = () => \x7b\n    const input = getInputString(loc.path);\n    refetch(input, loc.searchParams);\n  \x7d;\n  globalThis.__WAKU_RSC_RELOAD_LISTENERS__ ||= [];\n  const index = globalThis.__WAKU_RSC_RELOAD_LISTENERS__.indexOf(globalThis.__WAKU_REFETCH_ROUTE__);\n  if (index !== -1) \x7b\n    globalThis.__WAKU_RSC_RELOAD_LISTENERS__.splice(index, 1, refetchRoute);\n  \x7d else \x7b\n    globalThis.__WAKU_RSC_RELOAD_LISTENERS__.unshift(refetchRoute);\n  \x7d\n  globalThis.__WAKU_REFETCH_ROUTE__ = refetchRoute;\n\x7d\n"

/-- The plugin's `transform(code, id)` hook.  The two dist paths are
computed from `import.meta.url` at runtime, so they are parameters here.
A module whose `id` starts with the client dist path gets the fragment
refetch closure spliced in after `FETCH_RSC_LINE` via `code.replace`; a
module whose `id` starts with the router dist path gets the route refetch
closure after `INNER_ROUTER_LINE`; any other module is untouched
(the hook returns `undefined`). -/
def transform (wakuClientDist wakuRouterClientDist : String)
    (code id : String) : Option String :=
  if jsStartsWith id wakuClientDist then
    some (jsReplaceFirst code FETCH_RSC_LINE (FETCH_RSC_LINE ++ fetchRscInjectionText))
  else if jsStartsWith id wakuRouterClientDist then
    some (jsReplaceFirst code INNER_ROUTER_LINE (INNER_ROUTER_LINE ++ innerRouterInjectionText))
  else none

/-! ### Concrete fixtures used to instantiate the theorems -/

/-- Shorthand: the stimulus that hands an artifact to the gate
(`hotUpdate` with a `module-import` payload). -/
def deliverEvent (a : ModuleImportResult) : DevEvent :=
  DevEvent.payload (HotUpdatePayload.moduleImport a)

/-- A concrete artifact. -/
def wA1 : ModuleImportResult := ⟨0, "m1", "c1", "s1"⟩

/-- A second artifact, distinct object and distinct id. -/
def wA2 : ModuleImportResult := ⟨1, "m2", "c2", "s2"⟩

/-- A distinct object carrying the same `id` as `wA1`. -/
def wA1twin : ModuleImportResult := ⟨1, "m1", "c2", "s2"⟩

/-- A CSS-module artifact. -/
def wCssArtifact : ModuleImportResult := ⟨0, "a.module.css", "codeA", ""⟩

/-- A plain stylesheet artifact. -/
def wStyleArtifact : ModuleImportResult := ⟨1, "b.css", "", "bodyB"⟩

/-- A server whose registry entry exists and is empty. -/
def wStateEmptySet : DevState :=
  { modulePending := some [], pendingWaiters := [], sentEvents := [],
    everConnected := true }

/-- A server that has delivered `wA1`. -/
def wStateOne : DevState :=
  { modulePending := some [wA1], pendingWaiters := [],
    sentEvents := [HotUpdatePayload.moduleImport wA1], everConnected := true }

/-- A server whose registry holds a CSS-module artifact then a stylesheet. -/
def wStatePlanner : DevState :=
  { modulePending := some [wCssArtifact, wStyleArtifact], pendingWaiters := [],
    sentEvents := [], everConnected := true }

/-! ### Helper lemmas -/

theorem memRef_append (a b : ModuleImportResult) (l : List ModuleImportResult) :
    memRef a (l ++ [b]) = (memRef a l || (b.ref == a.ref)) := by
  simp [memRef]

theorem memRef_of_refEq {a b : ModuleImportResult} (h : b.ref = a.ref)
    (l : List ModuleImportResult) : memRef b l = memRef a l := by
  simp [memRef, h]

theorem listRecordCount_nil_of_not_mem {a : ModuleImportResult}
    {l : List ModuleImportResult} (h : memRef a l = false) :
    listRecordCount l a = 0 := by
  have h2 : ∀ b ∈ l, ¬(b.ref == a.ref) = true := by
    simpa [memRef, List.any_eq_false] using h
  simp [listRecordCount, List.filter_eq_nil_iff.mpr h2]

theorem listRecordCount_append (l1 l2 : List ModuleImportResult)
    (a : ModuleImportResult) :
    listRecordCount (l1 ++ l2) a = listRecordCount l1 a + listRecordCount l2 a := by
  simp [listRecordCount, List.filter_append]

theorem listRecordCount_single_self (a : ModuleImportResult) :
    listRecordCount [a] a = 1 := by
  simp [listRecordCount]

theorem listRecordCount_single_ne {a b : ModuleImportResult}
    (h : (b.ref == a.ref) = false) : listRecordCount [b] a = 0 := by
  simp [listRecordCount, h]

theorem listImportCount_append (l1 l2 : List HotUpdatePayload)
    (a : ModuleImportResult) :
    listImportCount (l1 ++ l2) a = listImportCount l1 a + listImportCount l2 a := by
  simp [listImportCount, List.filter_append]

theorem listImportCount_single_self (a : ModuleImportResult) :
    listImportCount [HotUpdatePayload.moduleImport a] a = 1 := by
  simp [listImportCount, isImportOf]

theorem listImportCount_single_ne {a b : ModuleImportResult}
    (h : (b.ref == a.ref) = false) :
    listImportCount [HotUpdatePayload.moduleImport b] a = 0 := by
  simp [listImportCount, isImportOf, h]

theorem moduleImportBody_pendingWaiters (st : DevState) (b : ModuleImportResult) :
    (moduleImportBody st b).pendingWaiters = st.pendingWaiters := by
  unfold moduleImportBody
  cases st.modulePending with
  | none => rfl
  | some s => dsimp only; split <;> rfl

theorem moduleImport_noop (st : DevState) (a : ModuleImportResult)
    (set : List ModuleImportResult) (h : st.modulePending = some set)
    (hmem : memRef a set = true) : moduleImport st a = st := by
  simp [moduleImport, moduleImportBody, h, hmem]

/-- Once the artifact is recorded (registry entry present, reference in
the set), running the post-await body for any further artifact keeps the
entry present, keeps the record, and changes neither the number of
`module-import` events for this artifact nor its record count. -/
theorem moduleImportBody_inv (st : DevState) (a b : ModuleImportResult)
    (h1 : st.modulePending.isSome = true) (h2 : hasRecord st a = true) :
    (moduleImportBody st b).modulePending.isSome = true ∧
    hasRecord (moduleImportBody st b) a = true ∧
    sentImportCount (moduleImportBody st b) a = sentImportCount st a ∧
    recordCount (moduleImportBody st b) a = recordCount st a := by
  cases hmp : st.modulePending with
  | none => rw [hmp] at h1; simp at h1
  | some set =>
    have hreg : registryList st = set := by simp [registryList, hmp]
    have hmemA : memRef a set = true := by rw [hasRecord, hreg] at h2; exact h2
    cases hb : memRef b set with
    | true =>
      have e : moduleImportBody st b = st := by simp [moduleImportBody, hmp, hb]
      rw [e]
      exact ⟨h1, h2, rfl, rfl⟩
    | false =>
      have hrefne : (b.ref == a.ref) = false := by
        cases heq : (b.ref == a.ref) with
        | false => rfl
        | true =>
          have hr : b.ref = a.ref := by simpa using heq
          rw [memRef_of_refEq hr set, hmemA] at hb
          cases hb
      simp only [moduleImportBody, hmp, hb, Bool.false_eq_true, if_false]
      refine ⟨rfl, ?_, ?_, ?_⟩
      · simp [hasRecord, registryList, memRef_append, hmemA]
      · simp [sentImportCount, listImportCount_append,
          listImportCount_single_ne hrefne]
      · simp [recordCount, registryList, hreg, listRecordCount_append,
          listRecordCount_single_ne hrefne, hmp]

/-- The invariant of `moduleImportBody_inv`, folded over any list of
resumed waiters. -/
theorem foldl_moduleImportBody_inv (a : ModuleImportResult)
    (l : List ModuleImportResult) :
    ∀ st : DevState, st.modulePending.isSome = true → hasRecord st a = true →
      (l.foldl moduleImportBody st).modulePending.isSome = true ∧
      hasRecord (l.foldl moduleImportBody st) a = true ∧
      sentImportCount (l.foldl moduleImportBody st) a = sentImportCount st a ∧
      recordCount (l.foldl moduleImportBody st) a = recordCount st a := by
  induction l with
  | nil => intro st h1 h2; exact ⟨h1, h2, rfl, rfl⟩
  | cons b rest ih =>
    intro st h1 h2
    obtain ⟨g1, g2, g3, g4⟩ := moduleImportBody_inv st a b h1 h2
    obtain ⟨k1, k2, k3, k4⟩ := ih (moduleImportBody st b) g1 g2
    refine ⟨by simpa using k1, by simpa using k2, ?_, ?_⟩
    · rw [List.foldl_cons, k3, g3]
    · rw [List.foldl_cons, k4, g4]

theorem replaceFirst_of_not_contains (pat rep : List Char) :
    ∀ s : List Char, containsSubstr pat s = false → replaceFirst pat rep s = s := by
  intro s
  induction s with
  | nil =>
    intro h
    rw [containsSubstr] at h
    simp [replaceFirst, h]
  | cons c cs ih =>
    intro h
    rw [containsSubstr, Bool.or_eq_false_iff] at h
    simp [replaceFirst, h.1, ih h.2]

/-! ### Claims -/

/-- C1 (counterexample): delivering artifacts `wA1` then `wA2` before any
connection and then observing the first connection does NOT transport them
in the order `wA1`, `wA2`: the transported order is `wA2` first. -/
theorem c1_fifo_replay_counterexample :
    (run initialDevState [deliverEvent wA1, deliverEvent wA2,
        DevEvent.connection]).sentEvents
      ≠ [HotUpdatePayload.moduleImport wA1, HotUpdatePayload.moduleImport wA2] := by
  decide

/-- C1 (amended): delivering `a1` then `a2` (distinct objects) before any
connection, the first call suspends while the second proceeds at once, so
`a2` is transported before the first connection event; on the first
connection `a1` is replayed.  No artifact is lost and the transported
order equals registry insertion order, namely `a2` then `a1`. -/
theorem c1_gate_replay_order (a1 a2 : ModuleImportResult)
    (h : a1.ref ≠ a2.ref) :
    (run initialDevState [deliverEvent a1, deliverEvent a2]).everConnected = false ∧
    (run initialDevState [deliverEvent a1, deliverEvent a2]).sentEvents
      = [HotUpdatePayload.moduleImport a2] ∧
    (run initialDevState [deliverEvent a1, deliverEvent a2,
        DevEvent.connection]).sentEvents
      = [HotUpdatePayload.moduleImport a2, HotUpdatePayload.moduleImport a1] ∧
    registryList (run initialDevState [deliverEvent a1, deliverEvent a2,
        DevEvent.connection]) = [a2, a1] := by
  have hne : (a2.ref == a1.ref) = false := beq_eq_false_iff_ne.mpr (Ne.symm h)
  refine ⟨?_, ?_, ?_, ?_⟩ <;>
    simp [run, devStep, deliverEvent, hotUpdate, moduleImport, moduleImportBody,
      connectionEvent, initialDevState, memRef, registryList, hne]

/-- C1 (witness). -/
theorem c1_gate_replay_order_witness :
    wA1.ref ≠ wA2.ref ∧
    ((run initialDevState [deliverEvent wA1, deliverEvent wA2]).everConnected = false ∧
     (run initialDevState [deliverEvent wA1, deliverEvent wA2]).sentEvents
       = [HotUpdatePayload.moduleImport wA2] ∧
     (run initialDevState [deliverEvent wA1, deliverEvent wA2,
         DevEvent.connection]).sentEvents
       = [HotUpdatePayload.moduleImport wA2, HotUpdatePayload.moduleImport wA1] ∧
     registryList (run initialDevState [deliverEvent wA1, deliverEvent wA2,
         DevEvent.connection]) = [wA2, wA1]) :=
  ⟨by decide, c1_gate_replay_order wA1 wA2 (by decide)⟩

/-- C2 (counterexample): after delivering `wA1` then `wA2` with no
connection ever observed, a `module-import` event for `wA2` has already
been transported, and the second call did not suspend (only `wA1` waits). -/
theorem c2_gate_suspension_counterexample :
    (run initialDevState [deliverEvent wA1, deliverEvent wA2]).everConnected
      = false ∧
    (run initialDevState [deliverEvent wA1, deliverEvent wA2]).sentEvents
      = [HotUpdatePayload.moduleImport wA2] ∧
    (run initialDevState [deliverEvent wA1, deliverEvent wA2]).pendingWaiters
      = [wA1] := by
  decide

/-- C2 (amended): only the first `deliver` call of a gate instance (the one
finding no registry entry) suspends until the first connection event,
transporting nothing; any call finding the entry already created proceeds
without suspension even when no connection has been observed. -/
theorem c2_gate_suspension (a : ModuleImportResult) (st : DevState)
    (set : List ModuleImportResult) (h : st.modulePending = some set) :
    (moduleImport initialDevState a).sentEvents = [] ∧
    (moduleImport initialDevState a).pendingWaiters = [a] ∧
    (moduleImport st a).pendingWaiters = st.pendingWaiters := by
  refine ⟨by simp [moduleImport, initialDevState],
    by simp [moduleImport, initialDevState], ?_⟩
  have e : moduleImport st a = moduleImportBody st a := by simp [moduleImport, h]
  rw [e, moduleImportBody_pendingWaiters]

/-- C2 (witness). -/
theorem c2_gate_suspension_witness :
    wStateEmptySet.modulePending = some [] ∧
    ((moduleImport initialDevState wA1).sentEvents = [] ∧
     (moduleImport initialDevState wA1).pendingWaiters = [wA1] ∧
     (moduleImport wStateEmptySet wA1).pendingWaiters
       = wStateEmptySet.pendingWaiters) :=
  ⟨rfl, c2_gate_suspension wA1 wStateEmptySet [] rfl⟩

/-- C8 (code divergence): a `hot-import` payload handed to `hotUpdate`
matches none of the dispatch branches: the state is unchanged and in
particular nothing is handed to the transport, instead of the event being
passed through unchanged. -/
theorem c8_hot_import_dropped (st : DevState) (s : String) :
    hotUpdate st (HotUpdatePayload.hotImport s) = st := rfl

/-- C6 (code divergence): the planner-emitted elements carry their
artifact id under the literal attribute name `WAKU_ATTR_NAME` (the source
uses the identifier as a plain object-literal key instead of a computed
key), while the `rsc-reload` handler of `injectingHmrCode` removes
elements by the attribute `waku-module-id`; hence no planner-emitted
element is matched by the removal query. -/
theorem c6_identity_attr_mismatch :
    removedByRscReloadHandler (cssModuleScriptTag wCssArtifact) = false ∧
    removedByRscReloadHandler (inlineStyleTag wStyleArtifact) = false ∧
    (cssModuleScriptTag wCssArtifact).attrs
      = [("type", "module"), ("WAKU_ATTR_NAME", "a.module.css")] ∧
    (inlineStyleTag wStyleArtifact).attrs
      = [("type", "text/css"), ("WAKU_ATTR_NAME", "b.css")] ∧
    rscReloadRemovalAttrName = "waku-module-id" := by
  decide

/-- C3: from any state in which artifact `a` is not recorded and no
`module-import` event for it has been transported, calling `deliver` twice
with `a` and then observing a connection yields exactly one transported
`module-import` event for `a` and exactly one registry record of `a`
(the second call is a no-op). -/
theorem c3_deliver_twice_dedup (st : DevState) (a : ModuleImportResult)
    (h1 : hasRecord st a = false) (h2 : sentImportCount st a = 0) :
    sentImportCount (run st [deliverEvent a, deliverEvent a,
      DevEvent.connection]) a = 1 ∧
    recordCount (run st [deliverEvent a, deliverEvent a,
      DevEvent.connection]) a = 1 := by
  have hrun : run st [deliverEvent a, deliverEvent a, DevEvent.connection]
      = connectionEvent (moduleImport (moduleImport st a) a) := rfl
  rw [hrun]
  simp only [sentImportCount] at h2
  cases hmp : st.modulePending with
  | none =>
    have e2 : moduleImport (moduleImport st a) a
        = { st with
            modulePending := some [a],
            pendingWaiters := st.pendingWaiters ++ [a],
            sentEvents := st.sentEvents ++ [HotUpdatePayload.moduleImport a] } := by
      have e1 : moduleImport st a
          = { st with
              modulePending := some [],
              pendingWaiters := st.pendingWaiters ++ [a] } := by
        simp [moduleImport, hmp]
      rw [e1]; simp [moduleImport, moduleImportBody, memRef]
    rw [e2]
    have e3 : connectionEvent ({ st with
        modulePending := some [a],
        pendingWaiters := st.pendingWaiters ++ [a],
        sentEvents := st.sentEvents ++ [HotUpdatePayload.moduleImport a] })
        = (st.pendingWaiters ++ [a]).foldl moduleImportBody
            { st with
              modulePending := some [a],
              pendingWaiters := [],
              sentEvents := st.sentEvents ++ [HotUpdatePayload.moduleImport a],
              everConnected := true } := rfl
    rw [e3]
    obtain ⟨k1, k2, k3, k4⟩ := foldl_moduleImportBody_inv a
      (st.pendingWaiters ++ [a])
      { st with
        modulePending := some [a],
        pendingWaiters := [],
        sentEvents := st.sentEvents ++ [HotUpdatePayload.moduleImport a],
        everConnected := true }
      rfl (by simp [hasRecord, registryList, memRef])
    constructor
    · rw [k3]
      simp [sentImportCount, listImportCount_append, listImportCount_single_self, h2]
    · rw [k4]
      simp [recordCount, registryList, listRecordCount_single_self]
  | some set =>
    have hreg : registryList st = set := by simp [registryList, hmp]
    have hmem0 : memRef a set = false := by rw [hasRecord, hreg] at h1; exact h1
    have e1 : moduleImport st a
        = { st with
            modulePending := some (set ++ [a]),
            sentEvents := st.sentEvents ++ [HotUpdatePayload.moduleImport a] } := by
      simp [moduleImport, moduleImportBody, hmp, hmem0]
    have hmem1 : memRef a (set ++ [a]) = true := by
      simp [memRef_append]
    have e2 : moduleImport (moduleImport st a) a = moduleImport st a := by
      refine moduleImport_noop _ _ (set ++ [a]) ?_ hmem1
      rw [e1]
    rw [e2, e1]
    have e3 : connectionEvent ({ st with
        modulePending := some (set ++ [a]),
        sentEvents := st.sentEvents ++ [HotUpdatePayload.moduleImport a] })
        = st.pendingWaiters.foldl moduleImportBody
            { st with
              modulePending := some (set ++ [a]),
              pendingWaiters := [],
              sentEvents := st.sentEvents ++ [HotUpdatePayload.moduleImport a],
              everConnected := true } := rfl
    rw [e3]
    obtain ⟨k1, k2, k3, k4⟩ := foldl_moduleImportBody_inv a st.pendingWaiters
      { st with
        modulePending := some (set ++ [a]),
        pendingWaiters := [],
        sentEvents := st.sentEvents ++ [HotUpdatePayload.moduleImport a],
        everConnected := true }
      rfl (by simp [hasRecord, registryList, hmem1])
    constructor
    · rw [k3]
      simp [sentImportCount, listImportCount_append, listImportCount_single_self, h2]
    · rw [k4]
      simp [recordCount, registryList, listRecordCount_append,
        listRecordCount_nil_of_not_mem hmem0, listRecordCount_single_self]

/-- C3 (witness). -/
theorem c3_deliver_twice_dedup_witness :
    hasRecord initialDevState wA1 = false ∧
    sentImportCount initialDevState wA1 = 0 ∧
    (sentImportCount (run initialDevState [deliverEvent wA1, deliverEvent wA1,
       DevEvent.connection]) wA1 = 1 ∧
     recordCount (run initialDevState [deliverEvent wA1, deliverEvent wA1,
       DevEvent.connection]) wA1 = 1) :=
  ⟨by decide, by decide, c3_deliver_twice_dedup initialDevState wA1 (by decide) (by decide)⟩

/-- C4: sending `rsc-reload` through `hotUpdate` empties the registry set
(so `has` is false for every artifact afterwards), transports the
`rsc-reload` event, and a subsequent redelivery of a previously delivered
artifact transports a fresh `module-import` event and records it anew. -/
theorem c4_rsc_reload_clears (st : DevState) (a : ModuleImportResult)
    (set : List ModuleImportResult) (h : st.modulePending = some set) :
    registryList (hotUpdate st HotUpdatePayload.rscReload) = [] ∧
    (hotUpdate st HotUpdatePayload.rscReload).sentEvents
      = st.sentEvents ++ [HotUpdatePayload.rscReload] ∧
    (moduleImport (hotUpdate st HotUpdatePayload.rscReload) a).sentEvents
      = (hotUpdate st HotUpdatePayload.rscReload).sentEvents
        ++ [HotUpdatePayload.moduleImport a] ∧
    hasRecord (moduleImport (hotUpdate st HotUpdatePayload.rscReload) a) a
      = true := by
  refine ⟨?_, rfl, ?_, ?_⟩
  · simp [registryList, hotUpdate, h]
  · simp [hotUpdate, moduleImport, moduleImportBody, h, memRef]
  · simp [hotUpdate, moduleImport, moduleImportBody, h, memRef, hasRecord,
      registryList]

/-- C4 (witness). -/
theorem c4_rsc_reload_clears_witness :
    wStateOne.modulePending = some [wA1] ∧
    (registryList (hotUpdate wStateOne HotUpdatePayload.rscReload) = [] ∧
     (hotUpdate wStateOne HotUpdatePayload.rscReload).sentEvents
       = wStateOne.sentEvents ++ [HotUpdatePayload.rscReload] ∧
     (moduleImport (hotUpdate wStateOne HotUpdatePayload.rscReload) wA1).sentEvents
       = (hotUpdate wStateOne HotUpdatePayload.rscReload).sentEvents
         ++ [HotUpdatePayload.moduleImport wA1] ∧
     hasRecord (moduleImport (hotUpdate wStateOne HotUpdatePayload.rscReload) wA1)
       wA1 = true) :=
  ⟨rfl, c4_rsc_reload_clears wStateOne wA1 [wA1] rfl⟩

/-- C5: when the registry holds one CSS-module artifact and one plain
stylesheet artifact in that order, the planner returns exactly the
parse-blocking Vite client tag, then the CSS-module script tag, then the
stylesheet element; the blocking tag appears once, before the CSS-module
tag, and the stylesheet does not precede it. -/
theorem c5_planner_ordering (st : DevState) (a b : ModuleImportResult)
    (hreg : st.modulePending = some [a, b])
    (ha : jsEndsWith a.id ".module.css" = true)
    (hb : jsEndsWith b.id ".module.css" = false) :
    generateInitialScripts (some st)
      = [blockingViteClientTag, cssModuleScriptTag a, inlineStyleTag b] := by
  simp [generateInitialScripts, hreg, initialScriptsLoop, ha, hb]

/-- C5 (witness). -/
theorem c5_planner_ordering_witness :
    wStatePlanner.modulePending = some [wCssArtifact, wStyleArtifact] ∧
    jsEndsWith wCssArtifact.id ".module.css" = true ∧
    jsEndsWith wStyleArtifact.id ".module.css" = false ∧
    generateInitialScripts (some wStatePlanner)
      = [blockingViteClientTag, cssModuleScriptTag wCssArtifact,
         inlineStyleTag wStyleArtifact] :=
  ⟨rfl, by decide, by decide,
   c5_planner_ordering wStatePlanner wCssArtifact wStyleArtifact rfl
     (by decide) (by decide)⟩

/-- C7 (counterexample): `wA1` and `wA1twin` are distinct artifact objects
with the same `id`; after `wA1` is delivered and recorded, delivering
`wA1twin` still transports a second `module-import` event and adds a
second registry record, refuting identity-keyed deduplication. -/
theorem c7_dedup_identity_counterexample :
    wA1.id = wA1twin.id ∧
    (run initialDevState [deliverEvent wA1, DevEvent.connection,
        deliverEvent wA1twin]).sentEvents
      = [HotUpdatePayload.moduleImport wA1, HotUpdatePayload.moduleImport wA1twin] ∧
    registryList (run initialDevState [deliverEvent wA1, DevEvent.connection,
        deliverEvent wA1twin]) = [wA1, wA1twin] := by
  decide

/-- C7 (amended): deduplication is keyed by the artifact object's
reference identity, not by its `id`: once an artifact with the same
reference is recorded for the server, a further `deliver` of it is a
complete no-op (no event, no record). -/
theorem c7_dedup_by_reference (st : DevState) (set : List ModuleImportResult)
    (a a2 : ModuleImportResult) (h : st.modulePending = some set)
    (hmem : memRef a set = true) (href : a2.ref = a.ref) :
    moduleImport st a2 = st :=
  moduleImport_noop st a2 set h (by rw [memRef_of_refEq href]; exact hmem)

/-- C7 (witness). -/
theorem c7_dedup_by_reference_witness :
    wStateOne.modulePending = some [wA1] ∧
    memRef wA1 [wA1] = true ∧
    moduleImport wStateOne wA1 = wStateOne :=
  ⟨rfl, by decide, c7_dedup_by_reference wStateOne [wA1] wA1 wA1 rfl (by decide) rfl⟩

/-- C10: the delivered-artifact registry is keyed by the dev-server object
alone: `deliver` does not depend on the connection argument at all, a
recorded artifact makes `deliver` a no-op for every connection, and the
`rsc-reload` clear empties the single set shared by all of the server's
connections at once. -/
theorem c10_registry_keyed_by_server (st : DevState) (a : ModuleImportResult)
    (set : List ModuleImportResult) (conn1 conn2 : Nat)
    (h : st.modulePending = some set) (hmem : memRef a set = true) :
    deliver conn1 st a = deliver conn2 st a ∧
    deliver conn1 st a = st ∧
    registryList (hotUpdate st HotUpdatePayload.rscReload) = [] :=
  ⟨rfl, moduleImport_noop st a set h hmem, by simp [registryList, hotUpdate, h]⟩

/-- C10 (witness). -/
theorem c10_registry_keyed_by_server_witness :
    wStateOne.modulePending = some [wA1] ∧
    memRef wA1 [wA1] = true ∧
    (deliver 0 wStateOne wA1 = deliver 1 wStateOne wA1 ∧
     deliver 0 wStateOne wA1 = wStateOne ∧
     registryList (hotUpdate wStateOne HotUpdatePayload.rscReload) = []) :=
  ⟨rfl, by decide,
   c10_registry_keyed_by_server wStateOne wA1 [wA1] 0 1 rfl (by decide)⟩

/-- C9: for each of the two targeted client modules (an `id` under the
client dist path, or under the router dist path), when the expected
insertion marker is absent from the module's code the `transform` hook
returns the input code unchanged, byte for byte, and this is not an
error. -/
theorem c9_patch_marker_safety
    (wakuClientDist wakuRouterClientDist code idc idr : String)
    (h1 : jsStartsWith idc wakuClientDist = true)
    (h2 : containsSubstr FETCH_RSC_LINE.data code.data = false)
    (h3 : jsStartsWith idr wakuClientDist = false)
    (h4 : jsStartsWith idr wakuRouterClientDist = true)
    (h5 : containsSubstr INNER_ROUTER_LINE.data code.data = false) :
    transform wakuClientDist wakuRouterClientDist code idc = some code ∧
    transform wakuClientDist wakuRouterClientDist code idr = some code := by
  have e1 : jsReplaceFirst code FETCH_RSC_LINE
      (FETCH_RSC_LINE ++ fetchRscInjectionText) = code := by
    unfold jsReplaceFirst
    rw [replaceFirst_of_not_contains _ _ _ h2]
  have e2 : jsReplaceFirst code INNER_ROUTER_LINE
      (INNER_ROUTER_LINE ++ innerRouterInjectionText) = code := by
    unfold jsReplaceFirst
    rw [replaceFirst_of_not_contains _ _ _ h5]
  constructor
  · simp [transform, h1, e1]
  · simp [transform, h3, h4, e2]

/-- C9 (witness). -/
theorem c9_patch_marker_safety_witness :
    jsStartsWith "/dist/client.js?v=1" "/dist/client.js" = true ∧
    containsSubstr FETCH_RSC_LINE.data "const x = 1;".data = false ∧
    jsStartsWith "/dist/router/client.js?v=1" "/dist/client.js" = false ∧
    jsStartsWith "/dist/router/client.js?v=1" "/dist/router/client.js" = true ∧
    containsSubstr INNER_ROUTER_LINE.data "const x = 1;".data = false ∧
    (transform "/dist/client.js" "/dist/router/client.js" "const x = 1;"
       "/dist/client.js?v=1" = some "const x = 1;" ∧
     transform "/dist/client.js" "/dist/router/client.js" "const x = 1;"
       "/dist/router/client.js?v=1" = some "const x = 1;") :=
  ⟨by decide, by decide, by decide, by decide, by decide,
   c9_patch_marker_safety "/dist/client.js" "/dist/router/client.js"
     "const x = 1;" "/dist/client.js?v=1" "/dist/router/client.js?v=1"
     (by decide) (by decide) (by decide) (by decide) (by decide)⟩

end RscHmr
